import Mathlib

set_option maxRecDepth 4000

/-!
Verification of the Feathercoin proof-of-work core (src/pow.cpp):
the difficulty retargeter `GetNextWorkRequired` and the validator
`CheckProofOfWork`, embedded shallowly in Lean 4.

Modelling conventions:
* C++ `int` / `int64_t` arithmetic is embedded as `Int` with the C
  truncating division and modulus (`Int.tdiv`, `Int.tmod`).  Theorems that
  depend on concrete arithmetic carry hypotheses keeping all quantities in
  the ranges where the C program has no signed overflow.
* 256-bit magnitudes (`arith_uint256`, `uint256`) are embedded as `Nat`.
* Undefined behaviour of the C++ source (division by zero, failed
  `assert`, null-pointer dereference) is made explicit: the embedded
  `GetNextWorkRequired` returns `Option Nat`, and `none` marks exactly the
  inputs on which the source program faults.
* The chain history is the inductive type `CBlockIndex`: `root` is a node
  whose `pprev` pointer is null, `cons` a node with a predecessor.
-/

/-- Consensus parameters read by the two entry points
(`Consensus::Params` fields used in pow.cpp). -/
structure ConsensusParams where
  powLimit : Nat
  nPowTargetTimespan : Int
  nPowTargetSpacing : Int
  fPowAllowMinDifficultyBlocks : Bool
  fPowNoRetargeting : Bool
  nForkOne : Int
  nForkTwo : Int
deriving DecidableEq

/-- One block's position in the accepted history.  `root` has a null
`pprev` pointer, `cons` stores the immediate predecessor. -/
inductive CBlockIndex : Type where
  | root (nHeight : Int) (nTime : Int) (nBits : Nat)
  | cons (nHeight : Int) (nTime : Int) (nBits : Nat) (pprev : CBlockIndex)
deriving DecidableEq

/-- Height accessor (`pindex->nHeight`). -/
def CBlockIndex.nHeight : CBlockIndex → Int
  | CBlockIndex.root h _ _ => h
  | CBlockIndex.cons h _ _ _ => h

/-- Block-time accessor (`pindex->GetBlockTime()`). -/
def CBlockIndex.GetBlockTime : CBlockIndex → Int
  | CBlockIndex.root _ t _ => t
  | CBlockIndex.cons _ t _ _ => t

/-- Compact-target accessor (`pindex->nBits`). -/
def CBlockIndex.nBits : CBlockIndex → Nat
  | CBlockIndex.root _ _ b => b
  | CBlockIndex.cons _ _ b _ => b

/-- Predecessor pointer (`pindex->pprev`), null at `root`. -/
def CBlockIndex.pprev : CBlockIndex → Option CBlockIndex
  | CBlockIndex.root _ _ _ => none
  | CBlockIndex.cons _ _ _ p => some p

/-- Fuel-driven bit length: `bitLenAux fuel n` is the bit length of `n`
whenever `n < 2 ^ fuel`. -/
def bitLenAux : Nat → Nat → Nat
  | 0, _ => 0
  | fuel + 1, n => if n = 0 then 0 else bitLenAux fuel (n / 2) + 1

/-- Modelled from the spec: `bits()` of the 256-bit magnitude type
(arith_uint256 is outside the provided sources); position of the highest
set bit plus one, `0` for zero.  Every value of the 256-bit type is below
`2 ^ 256`, so fuel 256 computes the exact bit length on all of them. -/
def arithBits (n : Nat) : Nat := bitLenAux 256 n

/-- Modelled from the spec: the magnitude decoded from a compact target by
the codec (`arith_uint256::SetCompact`, outside the provided sources).
A 1-byte base-256 exponent (bits 24..31) and a 3-byte mantissa
(bits 0..22; bit 23 is the sign bit, excluded from the magnitude); the
256-bit store truncates the shifted mantissa modulo `2 ^ 256`. -/
def setCompactValue (nCompact : Nat) : Nat :=
  if nCompact / 2 ^ 24 ≤ 3 then
    nCompact % 2 ^ 23 / 2 ^ (8 * (3 - nCompact / 2 ^ 24))
  else
    nCompact % 2 ^ 23 * 2 ^ (8 * (nCompact / 2 ^ 24 - 3)) % 2 ^ 256

/-- Modelled from the spec: the `negative` flag reported by the compact
codec — sign bit set and mantissa nonzero. -/
def setCompactNegative (nCompact : Nat) : Bool :=
  decide (nCompact % 2 ^ 23 ≠ 0) && decide (nCompact / 2 ^ 23 % 2 = 1)

/-- Modelled from the spec: the `overflow` flag reported by the compact
codec — the mantissa/exponent combination exceeds 256 bits. -/
def setCompactOverflow (nCompact : Nat) : Bool :=
  decide (nCompact % 2 ^ 23 ≠ 0) &&
    (decide (34 < nCompact / 2 ^ 24) ||
      (decide (255 < nCompact % 2 ^ 23) && decide (33 < nCompact / 2 ^ 24)) ||
      (decide (65535 < nCompact % 2 ^ 23) && decide (32 < nCompact / 2 ^ 24)))

/-- Modelled from the spec: compact encoding of a 256-bit magnitude
(`arith_uint256::GetCompact`, outside the provided sources).  The mantissa
keeps the top three bytes (truncating lower bits); if its top bit would
collide with the sign bit, the mantissa is shifted down one byte and the
exponent bumped. -/
def getCompactMantissa (v : Nat) : Nat :=
  if (arithBits v + 7) / 8 ≤ 3 then v % 2 ^ 64 * 2 ^ (8 * (3 - (arithBits v + 7) / 8))
  else v / 2 ^ (8 * ((arithBits v + 7) / 8 - 3)) % 2 ^ 64

/-- Second half of the compact encoding: place the exponent byte, bumping
it when the mantissa's top bit would collide with the sign bit. -/
def getCompact (v : Nat) : Nat :=
  if 2 ^ 23 ≤ getCompactMantissa v % 2 ^ 24 then
    getCompactMantissa v / 2 ^ 8 + ((arithBits v + 7) / 8 + 1) * 2 ^ 24
  else getCompactMantissa v + (arithBits v + 7) / 8 * 2 ^ 24

/-- `CheckProofOfWork` (pow.cpp lines 121-138): decode the claimed compact
target, reject negative / zero / overflowed / above-powLimit targets, then
reject a hash numerically above the target. -/
def CheckProofOfWork (hash : Nat) (nBits : Nat) (params : ConsensusParams) : Bool :=
  if setCompactNegative nBits || decide (setCompactValue nBits = 0) ||
      setCompactOverflow nBits || decide (params.powLimit < setCompactValue nBits) then
    false
  else if decide (setCompactValue nBits < hash) then false
  else true

/-- Modelled from the spec: `ancestor(h)` returns the unique predecessor at
height `h` for `0 ≤ h ≤ height`, walking `pprev` references, and fails for
a negative height or one above the node (`CBlockIndex::GetAncestor`,
outside the provided sources). -/
def CBlockIndex.GetAncestor : CBlockIndex → Int → Option CBlockIndex
  | CBlockIndex.root h t b, target =>
      if target < 0 ∨ h < target then none
      else if target = h then some (CBlockIndex.root h t b) else none
  | CBlockIndex.cons h t b p, target =>
      if target < 0 ∨ h < target then none
      else if target = h then some (CBlockIndex.cons h t b p)
      else CBlockIndex.GetAncestor p target

/-- The effective target timespan at a height (pow.cpp lines 19-26): the
base `nPowTargetTimespan`, overridden to 7/8 of a week from `nForkOne` and
to 7/32 of a week from `nForkTwo`. -/
def effectiveTimespan (params : ConsensusParams) (nHeight : Int) : Int :=
  if params.nForkTwo ≤ nHeight then 7 * 24 * 60 * 60 / 32
  else if params.nForkOne ≤ nHeight then 7 * 24 * 60 * 60 / 8
  else params.nPowTargetTimespan

/-- The adjustment interval (pow.cpp line 28): effective timespan divided
by the target spacing, C truncating division. -/
def intervalOf (params : ConsensusParams) (nHeight : Int) : Int :=
  Int.tdiv (effectiveTimespan params nHeight) params.nPowTargetSpacing

/-- The testnet exception-skip walk (pow.cpp lines 45-48): walk `pprev`
while the node has a predecessor, is not at an interval boundary, and
carries the minimum-difficulty compact target. -/
def skipMinDifficulty (nInterval : Int) (nProofOfWorkLimit : Nat) : CBlockIndex → CBlockIndex
  | CBlockIndex.root h t b => CBlockIndex.root h t b
  | CBlockIndex.cons h t b p =>
      if Int.tmod h nInterval ≠ 0 ∧ b = nProofOfWorkLimit then
        skipMinDifficulty nInterval nProofOfWorkLimit p
      else CBlockIndex.cons h t b p

/-- The bounded predecessor walk of the long window (pow.cpp lines 67-69):
`walkPrev k c` follows `pprev` for `k` steps from the nullable pointer `c`,
sticking at null once the chain is exhausted — exactly the final value of
`pindexFirst` after the `for` loop. -/
def walkPrev : Nat → Option CBlockIndex → Option CBlockIndex
  | 0, c => c
  | _ + 1, none => none
  | k + 1, some b => walkPrev k b.pprev

/-- Two's-complement narrowing of an `int64_t` value to C's 32-bit `int`:
the value modulo `2 ^ 32`, represented in `[-2 ^ 31, 2 ^ 31)`.  The source
stores `nActualTimespanLong` (pow.cpp line 71) and `nActualTimespanAvg`
(line 74) in `int`, so large 64-bit values wrap through this conversion. -/
def toInt32 (x : Int) : Int := (x + 2 ^ 31) % 2 ^ 32 - 2 ^ 31

/-- Whether a value fits C's 32-bit `int`.  Arithmetic typed `int` whose
mathematical result leaves this range is signed overflow, undefined
behaviour, marked `none` where it can occur. -/
def int32Range (x : Int) : Bool := decide (-(2 ^ 31) ≤ x) && decide (x < 2 ^ 31)

/-- The timespan handed to the clamp step (pow.cpp lines 63-79): the short
window, then for heights at or past `nForkTwo` the long-window average with
one-quarter damping.  The long window (line 71) and the average (line 74)
are stored in 32-bit `int` and so pass through `toInt32`; the damping sum
`nActualTimespanAvg + 3 * nTargetTimespan` (line 77) is computed in `int`,
so its overflow is undefined behaviour (`none`), as is the null-pointer
dereference of `pindexFirst->GetBlockTime()` when the walk exhausted the
chain. -/
def clampTimespanInput (pindexLast pindexFirst : CBlockIndex) (params : ConsensusParams)
    (nHeight nInterval nTargetTimespan : Int) : Option Int :=
  if params.nForkTwo ≤ nHeight then
    match walkPrev (nInterval * 4).toNat (some pindexLast) with
    | none => none
    | some w =>
        if int32Range (3 * nTargetTimespan) &&
            int32Range (toInt32 (Int.tdiv (pindexLast.GetBlockTime - pindexFirst.GetBlockTime +
                toInt32 (Int.tdiv (pindexLast.GetBlockTime - w.GetBlockTime) 4)) 2) +
              3 * nTargetTimespan) then
          some (Int.tdiv (toInt32 (Int.tdiv (pindexLast.GetBlockTime - pindexFirst.GetBlockTime +
              toInt32 (Int.tdiv (pindexLast.GetBlockTime - w.GetBlockTime) 4)) 2) +
            3 * nTargetTimespan) 4)
        else none
  else some (pindexLast.GetBlockTime - pindexFirst.GetBlockTime)

/-- The per-regime upper clamp bound (pow.cpp lines 81-95). -/
def clampMax (params : ConsensusParams) (nHeight nTargetTimespan : Int) : Int :=
  if params.nForkTwo ≤ nHeight then Int.tdiv (nTargetTimespan * 494) 453
  else if params.nForkOne ≤ nHeight ∧ nHeight < params.nForkTwo then
    Int.tdiv (nTargetTimespan * 99) 70
  else nTargetTimespan * 4

/-- The per-regime lower clamp bound (pow.cpp lines 81-95). -/
def clampMin (params : ConsensusParams) (nHeight nTargetTimespan : Int) : Int :=
  if params.nForkTwo ≤ nHeight then Int.tdiv (nTargetTimespan * 453) 494
  else if params.nForkOne ≤ nHeight ∧ nHeight < params.nForkTwo then
    Int.tdiv (nTargetTimespan * 70) 99
  else Int.tdiv nTargetTimespan 4

/-- The adjustment limiter (pow.cpp lines 97-101): raise below the lower
bound, then cap above the upper bound. -/
def limitAdjust (nActualTimespan nMin nMax : Int) : Int :=
  if nMax < (if nActualTimespan < nMin then nMin else nActualTimespan) then nMax
  else if nActualTimespan < nMin then nMin else nActualTimespan

/-- The overflow-guarded rescale (pow.cpp lines 104-113).  The 256-bit
arithmetic is modelled from the spec as exact unsigned arithmetic
(a `uint32_t`-sized timespan and divisor, both positive in every reachable
retarget); `fShift` right-shifts before the multiply and left-shifts after
the divide when the previous target is within one bit of the
representation's headroom. -/
def rescaledTarget (bnNew powLimit : Nat) (nActualTimespan nTargetTimespan : Int) : Nat :=
  if arithBits powLimit - 1 < arithBits bnNew then
    bnNew / 2 * nActualTimespan.toNat / nTargetTimespan.toNat * 2
  else
    bnNew * nActualTimespan.toNat / nTargetTimespan.toNat

/-- The retarget's final value (pow.cpp lines 104-118): rescale the decoded
previous target, clamp to `powLimit`, re-encode. -/
def computeRetargetValue (prevBits powLimit : Nat) (nActualTimespan nTargetTimespan : Int) : Nat :=
  getCompact
    (if powLimit < rescaledTarget (setCompactValue prevBits) powLimit nActualTimespan nTargetTimespan
     then powLimit
     else rescaledTarget (setCompactValue prevBits) powLimit nActualTimespan nTargetTimespan)

/-- The non-retarget branch (pow.cpp lines 33-52): testnet stale-clock
relaxation, exception-skip walk, or the previous bits unchanged. -/
def nonRetargetStep (pindexLast : CBlockIndex) (pblockTime : Int) (params : ConsensusParams)
    (nInterval : Int) : Option Nat :=
  if params.fPowAllowMinDifficultyBlocks then
    if pindexLast.GetBlockTime + params.nPowTargetSpacing * 2 < pblockTime then
      some (getCompact params.powLimit)
    else
      some (skipMinDifficulty nInterval (getCompact params.powLimit) pindexLast).nBits
  else some pindexLast.nBits

/-- The retarget branch (pow.cpp lines 54-118): window start lookup with
its two asserts, the no-retargeting escape, windowed timespan, clamp and
rescale.  `none` marks a failed assert or the long-window null
dereference. -/
def retargetStep (pindexLast : CBlockIndex) (params : ConsensusParams)
    (nHeight nInterval nTargetTimespan : Int) : Option Nat :=
  if pindexLast.nHeight - (nInterval - 1) < 0 then none
  else
    match pindexLast.GetAncestor (pindexLast.nHeight - (nInterval - 1)) with
    | none => none
    | some pindexFirst =>
        if params.fPowNoRetargeting then some pindexLast.nBits
        else
          match clampTimespanInput pindexLast pindexFirst params nHeight nInterval nTargetTimespan with
          | none => none
          | some nActualTimespan =>
              some (computeRetargetValue pindexLast.nBits params.powLimit
                (limitAdjust nActualTimespan (clampMin params nHeight nTargetTimespan)
                  (clampMax params nHeight nTargetTimespan))
                nTargetTimespan)

/-- `GetNextWorkRequired` (pow.cpp lines 13-119).  `none` marks the
source's undefined behaviour: division (or modulus) by a zero interval,
a failed assert, or the long-window null dereference. -/
def GetNextWorkRequired (pindexLast : CBlockIndex) (pblockTime : Int)
    (params : ConsensusParams) : Option Nat :=
  if params.nPowTargetSpacing = 0 then none
  else if intervalOf params (pindexLast.nHeight + 1) = 0 then none
  else if Int.tmod (pindexLast.nHeight + 1) (intervalOf params (pindexLast.nHeight + 1)) ≠ 0 ∧
      ¬(pindexLast.nHeight + 1 = params.nForkOne ∨ pindexLast.nHeight + 1 = params.nForkTwo) then
    nonRetargetStep pindexLast pblockTime params (intervalOf params (pindexLast.nHeight + 1))
  else
    retargetStep pindexLast params (pindexLast.nHeight + 1)
      (intervalOf params (pindexLast.nHeight + 1))
      (effectiveTimespan params (pindexLast.nHeight + 1))

/-- Every node reachable from this one (itself included) carries a compact
target decoding to a magnitude at most `limit`. -/
def chainRespects (limit : Nat) : CBlockIndex → Bool
  | CBlockIndex.root _ _ b => decide (setCompactValue b ≤ limit)
  | CBlockIndex.cons _ _ b p => decide (setCompactValue b ≤ limit) && chainRespects limit p

theorem bitLenAux_lt (fuel : Nat) : ∀ n, n < 2 ^ fuel → n < 2 ^ bitLenAux fuel n := by
  induction fuel with
  | zero =>
      intro n h
      have hn : n = 0 := by omega
      subst hn
      simp [bitLenAux]
  | succ f ih =>
      intro n h
      by_cases h0 : n = 0
      · subst h0; simp [bitLenAux]
      · have hdiv : n / 2 < 2 ^ f := by
          rw [Nat.div_lt_iff_lt_mul (by norm_num)]
          calc n < 2 ^ (f + 1) := h
            _ = 2 ^ f * 2 := by rw [pow_succ]
        have hrec := ih (n / 2) hdiv
        have hstep : bitLenAux (f + 1) n = bitLenAux f (n / 2) + 1 := by
          simp [bitLenAux, h0]
        rw [hstep, pow_succ]
        omega

theorem arithBits_lt (v : Nat) (hv : v < 2 ^ 256) : v < 2 ^ arithBits v :=
  bitLenAux_lt 256 v hv

theorem setCompactValue_lt (c : Nat) : setCompactValue c < 2 ^ 256 := by
  unfold setCompactValue
  by_cases h : c / 2 ^ 24 ≤ 3
  · rw [if_pos h]
    have h1 : c % 2 ^ 23 < 2 ^ 23 := Nat.mod_lt _ (by norm_num)
    have h2 : c % 2 ^ 23 / 2 ^ (8 * (3 - c / 2 ^ 24)) ≤ c % 2 ^ 23 := Nat.div_le_self _ _
    calc c % 2 ^ 23 / 2 ^ (8 * (3 - c / 2 ^ 24)) ≤ c % 2 ^ 23 := h2
      _ < 2 ^ 23 := h1
      _ < 2 ^ 256 := by norm_num
  · rw [if_neg h]
    exact Nat.mod_lt _ (by positivity)

theorem setCompactValue_build (m s : Nat) (hm : m < 2 ^ 23) :
    setCompactValue (m + s * 2 ^ 24) =
      if s ≤ 3 then m / 2 ^ (8 * (3 - s)) else m * 2 ^ (8 * (s - 3)) % 2 ^ 256 := by
  unfold setCompactValue
  have h1 : (m + s * 2 ^ 24) / 2 ^ 24 = s := by omega
  have h2 : (m + s * 2 ^ 24) % 2 ^ 23 = m := by omega
  rw [h1, h2]

theorem setCompactValue_getCompact_le (v : Nat) : setCompactValue (getCompact v) ≤ v := by
  by_cases hv : v < 2 ^ 256
  · have hb : v < 2 ^ arithBits v := arithBits_lt v hv
    unfold getCompact getCompactMantissa
    set n := (arithBits v + 7) / 8 with hn
    have h8 : arithBits v ≤ 8 * n := by omega
    have hvn : v < 2 ^ (8 * n) := lt_of_lt_of_le hb (Nat.pow_le_pow_right (by norm_num) h8)
    by_cases h3 : n ≤ 3
    · have h64 : v % 2 ^ 64 = v :=
        Nat.mod_eq_of_lt (lt_of_lt_of_le hvn (Nat.pow_le_pow_right (by norm_num) (by omega)))
      rw [if_pos h3, h64]
      have hc24 : v * 2 ^ (8 * (3 - n)) < 2 ^ 24 := by
        calc v * 2 ^ (8 * (3 - n)) < 2 ^ (8 * n) * 2 ^ (8 * (3 - n)) :=
              (Nat.mul_lt_mul_right (pow_pos (by norm_num) _)).mpr hvn
          _ = 2 ^ 24 := by rw [← pow_add]; congr 1; omega
      have hcm : v * 2 ^ (8 * (3 - n)) % 2 ^ 24 = v * 2 ^ (8 * (3 - n)) := Nat.mod_eq_of_lt hc24
      rw [hcm]
      by_cases hadj : 2 ^ 23 ≤ v * 2 ^ (8 * (3 - n))
      · rw [if_pos hadj]
        have hq : v * 2 ^ (8 * (3 - n)) / 2 ^ 8 < 2 ^ 23 := by omega
        rw [setCompactValue_build _ _ hq]
        by_cases hns : n + 1 ≤ 3
        · rw [if_pos hns]
          have hsplit : (2 : Nat) ^ (8 * (3 - n)) = 2 ^ 8 * 2 ^ (8 * (2 - n)) := by
            rw [← pow_add]; congr 1; omega
          have hq2 : v * 2 ^ (8 * (3 - n)) / 2 ^ 8 = v * 2 ^ (8 * (2 - n)) := by
            rw [hsplit, ← Nat.mul_assoc, Nat.mul_comm v (2 ^ 8), Nat.mul_assoc,
              Nat.mul_div_cancel_left _ (pow_pos (by norm_num) 8)]
          rw [hq2]
          have h32 : 3 - (n + 1) = 2 - n := by omega
          rw [h32, Nat.mul_div_cancel _ (pow_pos (by norm_num) _)]
        · rw [if_neg hns]
          have e1 : 8 * (3 - n) = 0 := by omega
          have e2 : 8 * (n + 1 - 3) = 8 := by omega
          rw [e1, e2]
          simp only [pow_zero, Nat.mul_one]
          calc v / 2 ^ 8 * 2 ^ 8 % 2 ^ 256 ≤ v / 2 ^ 8 * 2 ^ 8 := Nat.mod_le _ _
            _ ≤ v := Nat.div_mul_le_self _ _
      · rw [if_neg hadj]
        push_neg at hadj
        rw [setCompactValue_build _ _ hadj, if_pos h3,
          Nat.mul_div_cancel _ (pow_pos (by norm_num) _)]
    · rw [if_neg h3]
      have hqlt : v / 2 ^ (8 * (n - 3)) < 2 ^ 24 := by
        rw [Nat.div_lt_iff_lt_mul (pow_pos (by norm_num) _)]
        calc v < 2 ^ (8 * n) := hvn
          _ = 2 ^ 24 * 2 ^ (8 * (n - 3)) := by rw [← pow_add]; congr 1; omega
      have h64 : v / 2 ^ (8 * (n - 3)) % 2 ^ 64 = v / 2 ^ (8 * (n - 3)) :=
        Nat.mod_eq_of_lt (by omega)
      rw [h64]
      have hcm : v / 2 ^ (8 * (n - 3)) % 2 ^ 24 = v / 2 ^ (8 * (n - 3)) :=
        Nat.mod_eq_of_lt hqlt
      rw [hcm]
      by_cases hadj : 2 ^ 23 ≤ v / 2 ^ (8 * (n - 3))
      · rw [if_pos hadj]
        have hq : v / 2 ^ (8 * (n - 3)) / 2 ^ 8 < 2 ^ 23 := by omega
        rw [setCompactValue_build _ _ hq, if_neg (by omega)]
        have hdd : v / 2 ^ (8 * (n - 3)) / 2 ^ 8 = v / 2 ^ (8 * (n + 1 - 3)) := by
          rw [Nat.div_div_eq_div_mul, ← pow_add]
          congr 2
          omega
        rw [hdd]
        calc v / 2 ^ (8 * (n + 1 - 3)) * 2 ^ (8 * (n + 1 - 3)) % 2 ^ 256
            ≤ v / 2 ^ (8 * (n + 1 - 3)) * 2 ^ (8 * (n + 1 - 3)) := Nat.mod_le _ _
          _ ≤ v := Nat.div_mul_le_self _ _
      · rw [if_neg hadj]
        push_neg at hadj
        rw [setCompactValue_build _ _ hadj, if_neg h3]
        calc v / 2 ^ (8 * (n - 3)) * 2 ^ (8 * (n - 3)) % 2 ^ 256
            ≤ v / 2 ^ (8 * (n - 3)) * 2 ^ (8 * (n - 3)) := Nat.mod_le _ _
          _ ≤ v := Nat.div_mul_le_self _ _
  · exact le_trans (Nat.le_of_lt (setCompactValue_lt _)) (by omega)

theorem chainRespects_nBits {limit : Nat} {b : CBlockIndex}
    (h : chainRespects limit b = true) : setCompactValue b.nBits ≤ limit := by
  cases b with
  | root hh tt bb => simpa [chainRespects, CBlockIndex.nBits] using h
  | cons hh tt bb p =>
      simp only [chainRespects, Bool.and_eq_true, decide_eq_true_eq] at h
      simpa [CBlockIndex.nBits] using h.1

theorem chainRespects_pprev {limit : Nat} {h t : Int} {b : Nat} {p : CBlockIndex}
    (hc : chainRespects limit (CBlockIndex.cons h t b p) = true) :
    chainRespects limit p = true := by
  simp only [chainRespects, Bool.and_eq_true] at hc
  exact hc.2

theorem skipMinDifficulty_respects (nInterval : Int) (c limit : Nat) (b : CBlockIndex)
    (h : chainRespects limit b = true) :
    setCompactValue (skipMinDifficulty nInterval c b).nBits ≤ limit := by
  induction b with
  | root hh tt bb => simpa [skipMinDifficulty, CBlockIndex.nBits] using chainRespects_nBits h
  | cons hh tt bb p ih =>
      unfold skipMinDifficulty
      by_cases hc : Int.tmod hh nInterval ≠ 0 ∧ bb = c
      · rw [if_pos hc]
        exact ih (chainRespects_pprev h)
      · rw [if_neg hc]
        exact chainRespects_nBits h

theorem computeRetargetValue_le (prevBits powLimit : Nat) (a t : Int) :
    setCompactValue (computeRetargetValue prevBits powLimit a t) ≤ powLimit := by
  unfold computeRetargetValue
  by_cases h : powLimit < rescaledTarget (setCompactValue prevBits) powLimit a t
  · rw [if_pos h]
    exact setCompactValue_getCompact_le powLimit
  · rw [if_neg h]
    exact le_trans (setCompactValue_getCompact_le _) (by omega)

/-- Claim C1: `CheckProofOfWork` accepts exactly when the decoded target is
not negative, not overflowed, strictly positive, at most `powLimit`, and
the hash is at most the target; in every other case it returns the boolean
`false`, consulting nothing but its three arguments. -/
theorem CheckProofOfWork_iff (hash nBits : Nat) (params : ConsensusParams) :
    CheckProofOfWork hash nBits params = true ↔
      setCompactNegative nBits = false ∧ setCompactOverflow nBits = false ∧
      0 < setCompactValue nBits ∧ setCompactValue nBits ≤ params.powLimit ∧
      hash ≤ setCompactValue nBits := by
  unfold CheckProofOfWork
  by_cases h1 : setCompactNegative nBits
  · simp [h1]
  · by_cases h2 : setCompactOverflow nBits
    · simp [h1, h2]
    · simp [h1, h2]
      omega

/-- Claim C2: whenever the previous index heads a valid chain (every
recorded compact target on it decodes to a magnitude at most `powLimit`)
and `GetNextWorkRequired` returns a compact target, that target decodes to
a magnitude at most `powLimit`, on every path. -/
theorem GetNextWorkRequired_le_powLimit (pindexLast : CBlockIndex) (pblockTime : Int)
    (params : ConsensusParams) (r : Nat)
    (hchain : chainRespects params.powLimit pindexLast = true)
    (h : GetNextWorkRequired pindexLast pblockTime params = some r) :
    setCompactValue r ≤ params.powLimit := by
  unfold GetNextWorkRequired at h
  split_ifs at h
  · -- non-retarget branch
    unfold nonRetargetStep at h
    split_ifs at h
    · rw [Option.some_inj] at h
      rw [← h]
      exact setCompactValue_getCompact_le _
    · rw [Option.some_inj] at h
      rw [← h]
      exact skipMinDifficulty_respects _ _ _ _ hchain
    · rw [Option.some_inj] at h
      rw [← h]
      exact chainRespects_nBits hchain
  · -- retarget branch
    unfold retargetStep at h
    by_cases ha : pindexLast.nHeight - (intervalOf params (pindexLast.nHeight + 1) - 1) < 0
    · rw [if_pos ha] at h
      exact absurd h (by simp)
    · rw [if_neg ha] at h
      cases hanc : pindexLast.GetAncestor
          (pindexLast.nHeight - (intervalOf params (pindexLast.nHeight + 1) - 1)) with
      | none =>
          rw [hanc] at h
          exact absurd h (by simp)
      | some pindexFirst =>
          rw [hanc] at h
          dsimp only at h
          by_cases hnr : params.fPowNoRetargeting = true
          · rw [if_pos hnr] at h
            rw [Option.some_inj] at h
            rw [← h]
            exact chainRespects_nBits hchain
          · rw [if_neg hnr] at h
            cases hcl : clampTimespanInput pindexLast pindexFirst params (pindexLast.nHeight + 1)
                (intervalOf params (pindexLast.nHeight + 1))
                (effectiveTimespan params (pindexLast.nHeight + 1)) with
            | none =>
                rw [hcl] at h
                exact absurd h (by simp)
            | some nActualTimespan =>
                rw [hcl] at h
                dsimp only at h
                rw [Option.some_inj] at h
                rw [← h]
                exact computeRetargetValue_le _ _ _ _

/-- Claim C3: off the interval and fork boundaries, with the testnet
relaxation disabled, `GetNextWorkRequired` returns the previous block's
bits unchanged, whatever the candidate timestamp and the no-retargeting
flag are. -/
theorem GetNextWorkRequired_nonRetarget (pindexLast : CBlockIndex) (pblockTime : Int)
    (params : ConsensusParams)
    (hsp : params.nPowTargetSpacing ≠ 0)
    (hint : intervalOf params (pindexLast.nHeight + 1) ≠ 0)
    (hmod : Int.tmod (pindexLast.nHeight + 1) (intervalOf params (pindexLast.nHeight + 1)) ≠ 0)
    (hf1 : pindexLast.nHeight + 1 ≠ params.nForkOne)
    (hf2 : pindexLast.nHeight + 1 ≠ params.nForkTwo)
    (hmin : params.fPowAllowMinDifficultyBlocks = false) :
    GetNextWorkRequired pindexLast pblockTime params = some pindexLast.nBits := by
  unfold GetNextWorkRequired
  rw [if_neg hsp, if_neg hint, if_pos ⟨hmod, by tauto⟩]
  unfold nonRetargetStep
  rw [hmin]
  simp

theorem GetNextWorkRequired_nonRetarget_witness :
    GetNextWorkRequired (CBlockIndex.root 4 1000 100) 2000
      (ConsensusParams.mk 70000 400 100 false false 100 200) = some 100 :=
  GetNextWorkRequired_nonRetarget (CBlockIndex.root 4 1000 100) 2000
    (ConsensusParams.mk 70000 400 100 false false 100 200)
    (by decide) (by decide) (by decide) (by decide) (by decide) (by decide)

/-- Claim C9: on the non-retarget path with the testnet relaxation enabled
and a candidate timestamp more than twice the base target spacing past the
previous block time, `GetNextWorkRequired` returns the compact encoding of
`powLimit` itself. -/
theorem GetNextWorkRequired_minDifficulty (pindexLast : CBlockIndex) (pblockTime : Int)
    (params : ConsensusParams)
    (hsp : params.nPowTargetSpacing ≠ 0)
    (hint : intervalOf params (pindexLast.nHeight + 1) ≠ 0)
    (hmod : Int.tmod (pindexLast.nHeight + 1) (intervalOf params (pindexLast.nHeight + 1)) ≠ 0)
    (hf1 : pindexLast.nHeight + 1 ≠ params.nForkOne)
    (hf2 : pindexLast.nHeight + 1 ≠ params.nForkTwo)
    (hmin : params.fPowAllowMinDifficultyBlocks = true)
    (ht : pindexLast.GetBlockTime + params.nPowTargetSpacing * 2 < pblockTime) :
    GetNextWorkRequired pindexLast pblockTime params = some (getCompact params.powLimit) := by
  unfold GetNextWorkRequired
  rw [if_neg hsp, if_neg hint, if_pos ⟨hmod, by tauto⟩]
  unfold nonRetargetStep
  rw [hmin, if_pos rfl, if_pos ht]

theorem GetNextWorkRequired_minDifficulty_witness :
    GetNextWorkRequired (CBlockIndex.root 4 1000 100) 2000
      (ConsensusParams.mk 70000 400 100 true false 100 200) =
      some (getCompact 70000) :=
  GetNextWorkRequired_minDifficulty (CBlockIndex.root 4 1000 100) 2000
    (ConsensusParams.mk 70000 400 100 true false 100 200)
    (by decide) (by decide) (by decide) (by decide) (by decide) (by decide) (by decide)

theorem tdiv_coe (a b : Nat) : Int.tdiv (a : Int) (b : Int) = ((a / b : Nat) : Int) :=
  (Int.ofNat_tdiv a b).symm

/-- Claim C10: the interval divisor is computed with no zero guard; past
`nForkTwo` the effective timespan is 18900 seconds, so any spacing above
18900 makes the interval zero and the division/modulus by it undefined —
the embedded function returns `none` (the source faults) for every such
height. -/
theorem GetNextWorkRequired_interval_zero (pindexLast : CBlockIndex) (pblockTime : Int)
    (params : ConsensusParams)
    (hsp : 18900 < params.nPowTargetSpacing)
    (hh : params.nForkTwo ≤ pindexLast.nHeight + 1) :
    intervalOf params (pindexLast.nHeight + 1) = 0 ∧
      GetNextWorkRequired pindexLast pblockTime params = none := by
  have heff : effectiveTimespan params (pindexLast.nHeight + 1) = 18900 := by
    unfold effectiveTimespan
    rw [if_pos hh]
    decide
  have hint : intervalOf params (pindexLast.nHeight + 1) = 0 := by
    unfold intervalOf
    rw [heff]
    obtain ⟨m, hm⟩ : ∃ m : Nat, params.nPowTargetSpacing = (m : Int) :=
      ⟨params.nPowTargetSpacing.toNat, (Int.toNat_of_nonneg (by omega)).symm⟩
    rw [hm]
    have h1 : (18900 : Int) = ((18900 : Nat) : Int) := rfl
    rw [h1, tdiv_coe]
    have h2 : 18900 / m = 0 := Nat.div_eq_of_lt (by omega)
    rw [h2]
    rfl
  refine ⟨hint, ?_⟩
  unfold GetNextWorkRequired
  rw [if_neg (by omega : ¬params.nPowTargetSpacing = 0), if_pos hint]

theorem GetNextWorkRequired_interval_zero_witness :
    intervalOf (ConsensusParams.mk 1000 400 20000 false false 0 0) (0 + 1) = 0 ∧
      GetNextWorkRequired (CBlockIndex.root 0 1000 100) 2000
        (ConsensusParams.mk 1000 400 20000 false false 0 0) = none :=
  GetNextWorkRequired_interval_zero (CBlockIndex.root 0 1000 100) 2000
    (ConsensusParams.mk 1000 400 20000 false false 0 0) (by decide) (by decide)

/-- Claim C8: with the two undefined-behaviour guards passed, the
interval-boundary test is bypassed exactly at the two fork heights: at a
fork height `GetNextWorkRequired` runs the retarget branch even off an
interval boundary, and in general the branch taken is the retarget branch
precisely unless the height is off-boundary and off both forks. -/
theorem GetNextWorkRequired_forkBoundary (pindexLast : CBlockIndex) (pblockTime : Int)
    (params : ConsensusParams)
    (hsp : params.nPowTargetSpacing ≠ 0)
    (hint : intervalOf params (pindexLast.nHeight + 1) ≠ 0) :
    ((pindexLast.nHeight + 1 = params.nForkOne ∨ pindexLast.nHeight + 1 = params.nForkTwo) →
      GetNextWorkRequired pindexLast pblockTime params =
        retargetStep pindexLast params (pindexLast.nHeight + 1)
          (intervalOf params (pindexLast.nHeight + 1))
          (effectiveTimespan params (pindexLast.nHeight + 1))) ∧
    GetNextWorkRequired pindexLast pblockTime params =
      (if Int.tmod (pindexLast.nHeight + 1) (intervalOf params (pindexLast.nHeight + 1)) ≠ 0 ∧
          ¬(pindexLast.nHeight + 1 = params.nForkOne ∨
            pindexLast.nHeight + 1 = params.nForkTwo) then
        nonRetargetStep pindexLast pblockTime params (intervalOf params (pindexLast.nHeight + 1))
      else
        retargetStep pindexLast params (pindexLast.nHeight + 1)
          (intervalOf params (pindexLast.nHeight + 1))
          (effectiveTimespan params (pindexLast.nHeight + 1))) := by
  have hbase : GetNextWorkRequired pindexLast pblockTime params =
      (if Int.tmod (pindexLast.nHeight + 1) (intervalOf params (pindexLast.nHeight + 1)) ≠ 0 ∧
          ¬(pindexLast.nHeight + 1 = params.nForkOne ∨
            pindexLast.nHeight + 1 = params.nForkTwo) then
        nonRetargetStep pindexLast pblockTime params (intervalOf params (pindexLast.nHeight + 1))
      else
        retargetStep pindexLast params (pindexLast.nHeight + 1)
          (intervalOf params (pindexLast.nHeight + 1))
          (effectiveTimespan params (pindexLast.nHeight + 1))) := by
    unfold GetNextWorkRequired
    rw [if_neg hsp, if_neg hint]
  refine ⟨?_, hbase⟩
  intro hfork
  rw [hbase, if_neg (by tauto)]

theorem GetNextWorkRequired_forkBoundary_witness :
    GetNextWorkRequired
        (CBlockIndex.cons 4 1400 196608
          (CBlockIndex.cons 3 1300 196608
            (CBlockIndex.cons 2 1200 196608
              (CBlockIndex.cons 1 1100 196608 (CBlockIndex.root 0 1000 196608)))))
        2000 (ConsensusParams.mk 65535 400 25200 false false 5 1000) =
      retargetStep
        (CBlockIndex.cons 4 1400 196608
          (CBlockIndex.cons 3 1300 196608
            (CBlockIndex.cons 2 1200 196608
              (CBlockIndex.cons 1 1100 196608 (CBlockIndex.root 0 1000 196608)))))
        (ConsensusParams.mk 65535 400 25200 false false 5 1000) 5 3 75600 := by
  have h :=
    (GetNextWorkRequired_forkBoundary
      (CBlockIndex.cons 4 1400 196608
        (CBlockIndex.cons 3 1300 196608
          (CBlockIndex.cons 2 1200 196608
            (CBlockIndex.cons 1 1100 196608 (CBlockIndex.root 0 1000 196608)))))
      2000 (ConsensusParams.mk 65535 400 25200 false false 5 1000)
      (by decide) (by decide)).1 (by decide)
  rw [h]
  rfl

theorem effectiveTimespan_nonneg (params : ConsensusParams) (nHeight : Int)
    (hts : 0 ≤ params.nPowTargetTimespan) : 0 ≤ effectiveTimespan params nHeight := by
  unfold effectiveTimespan
  split_ifs
  · decide
  · decide
  · exact hts

theorem limitAdjust_mem (a mn mx : Int) (h : mn ≤ mx) :
    mn ≤ limitAdjust a mn mx ∧ limitAdjust a mn mx ≤ mx := by
  unfold limitAdjust
  split_ifs <;> omega

theorem clampMin_le_clampMax (params : ConsensusParams) (nHeight t : Int) (ht : 0 ≤ t) :
    clampMin params nHeight t ≤ clampMax params nHeight t := by
  unfold clampMin clampMax
  split_ifs
  · rw [Int.tdiv_eq_ediv (by omega) (by norm_num), Int.tdiv_eq_ediv (by omega) (by norm_num)]
    omega
  · rw [Int.tdiv_eq_ediv (by omega) (by norm_num), Int.tdiv_eq_ediv (by omega) (by norm_num)]
    omega
  · rw [Int.tdiv_eq_ediv ht (by norm_num)]
    omega

/-- Claim C5: on every retarget the clamped timespan lies within the
bounds of the height's fork regime, and those bounds are the three
documented pairs: `[t/4, t*4]` below `nForkOne`, `[t*70/99, t*99/70]`
between the forks, `[t*453/494, t*494/453]` from `nForkTwo` on (integer
division throughout). -/
theorem limitAdjust_within_regime (params : ConsensusParams) (nHeight a : Int)
    (hts : 0 ≤ params.nPowTargetTimespan)
    (hforks : params.nForkOne ≤ params.nForkTwo) :
    clampMin params nHeight (effectiveTimespan params nHeight) ≤
      limitAdjust a (clampMin params nHeight (effectiveTimespan params nHeight))
        (clampMax params nHeight (effectiveTimespan params nHeight)) ∧
    limitAdjust a (clampMin params nHeight (effectiveTimespan params nHeight))
        (clampMax params nHeight (effectiveTimespan params nHeight)) ≤
      clampMax params nHeight (effectiveTimespan params nHeight) ∧
    (nHeight < params.nForkOne →
      clampMin params nHeight (effectiveTimespan params nHeight) =
        Int.tdiv (effectiveTimespan params nHeight) 4 ∧
      clampMax params nHeight (effectiveTimespan params nHeight) =
        effectiveTimespan params nHeight * 4) ∧
    (params.nForkOne ≤ nHeight ∧ nHeight < params.nForkTwo →
      clampMin params nHeight (effectiveTimespan params nHeight) =
        Int.tdiv (effectiveTimespan params nHeight * 70) 99 ∧
      clampMax params nHeight (effectiveTimespan params nHeight) =
        Int.tdiv (effectiveTimespan params nHeight * 99) 70) ∧
    (params.nForkTwo ≤ nHeight →
      clampMin params nHeight (effectiveTimespan params nHeight) =
        Int.tdiv (effectiveTimespan params nHeight * 453) 494 ∧
      clampMax params nHeight (effectiveTimespan params nHeight) =
        Int.tdiv (effectiveTimespan params nHeight * 494) 453) := by
  have ht := effectiveTimespan_nonneg params nHeight hts
  have hmm := clampMin_le_clampMax params nHeight _ ht
  have hla := limitAdjust_mem a _ _ hmm
  refine ⟨hla.1, hla.2, ?_, ?_, ?_⟩
  · intro h1
    have h2 : ¬params.nForkTwo ≤ nHeight := by omega
    have h3 : ¬(params.nForkOne ≤ nHeight ∧ nHeight < params.nForkTwo) := by omega
    unfold clampMin clampMax
    rw [if_neg h2, if_neg h3, if_neg h2, if_neg h3]
    exact ⟨rfl, rfl⟩
  · intro h1
    have h2 : ¬params.nForkTwo ≤ nHeight := by omega
    unfold clampMin clampMax
    rw [if_neg h2, if_pos h1, if_neg h2, if_pos h1]
    exact ⟨rfl, rfl⟩
  · intro h1
    unfold clampMin clampMax
    rw [if_pos h1, if_pos h1]
    exact ⟨rfl, rfl⟩

theorem limitAdjust_within_regime_witness :
    clampMin (ConsensusParams.mk 1000 400 100 false false 10 20) 15
        (effectiveTimespan (ConsensusParams.mk 1000 400 100 false false 10 20) 15) ≤
      limitAdjust 777 (clampMin (ConsensusParams.mk 1000 400 100 false false 10 20) 15
          (effectiveTimespan (ConsensusParams.mk 1000 400 100 false false 10 20) 15))
        (clampMax (ConsensusParams.mk 1000 400 100 false false 10 20) 15
          (effectiveTimespan (ConsensusParams.mk 1000 400 100 false false 10 20) 15)) ∧
    limitAdjust 777 (clampMin (ConsensusParams.mk 1000 400 100 false false 10 20) 15
        (effectiveTimespan (ConsensusParams.mk 1000 400 100 false false 10 20) 15))
      (clampMax (ConsensusParams.mk 1000 400 100 false false 10 20) 15
        (effectiveTimespan (ConsensusParams.mk 1000 400 100 false false 10 20) 15)) ≤
      clampMax (ConsensusParams.mk 1000 400 100 false false 10 20) 15
        (effectiveTimespan (ConsensusParams.mk 1000 400 100 false false 10 20) 15) ∧
    (15 < (10 : Int) →
      clampMin (ConsensusParams.mk 1000 400 100 false false 10 20) 15
          (effectiveTimespan (ConsensusParams.mk 1000 400 100 false false 10 20) 15) =
        Int.tdiv (effectiveTimespan (ConsensusParams.mk 1000 400 100 false false 10 20) 15) 4 ∧
      clampMax (ConsensusParams.mk 1000 400 100 false false 10 20) 15
          (effectiveTimespan (ConsensusParams.mk 1000 400 100 false false 10 20) 15) =
        effectiveTimespan (ConsensusParams.mk 1000 400 100 false false 10 20) 15 * 4) ∧
    ((10 : Int) ≤ 15 ∧ (15 : Int) < 20 →
      clampMin (ConsensusParams.mk 1000 400 100 false false 10 20) 15
          (effectiveTimespan (ConsensusParams.mk 1000 400 100 false false 10 20) 15) =
        Int.tdiv (effectiveTimespan (ConsensusParams.mk 1000 400 100 false false 10 20) 15 * 70) 99 ∧
      clampMax (ConsensusParams.mk 1000 400 100 false false 10 20) 15
          (effectiveTimespan (ConsensusParams.mk 1000 400 100 false false 10 20) 15) =
        Int.tdiv (effectiveTimespan (ConsensusParams.mk 1000 400 100 false false 10 20) 15 * 99) 70) ∧
    ((20 : Int) ≤ 15 →
      clampMin (ConsensusParams.mk 1000 400 100 false false 10 20) 15
          (effectiveTimespan (ConsensusParams.mk 1000 400 100 false false 10 20) 15) =
        Int.tdiv (effectiveTimespan (ConsensusParams.mk 1000 400 100 false false 10 20) 15 * 453) 494 ∧
      clampMax (ConsensusParams.mk 1000 400 100 false false 10 20) 15
          (effectiveTimespan (ConsensusParams.mk 1000 400 100 false false 10 20) 15) =
        Int.tdiv (effectiveTimespan (ConsensusParams.mk 1000 400 100 false false 10 20) 15 * 494) 453) :=
  limitAdjust_within_regime (ConsensusParams.mk 1000 400 100 false false 10 20) 15 777
    (by decide) (by decide)

theorem bitLenAux_pos (fuel n : Nat) (h : n ≠ 0) : 0 < bitLenAux (fuel + 1) n := by
  simp [bitLenAux, h]

theorem arithBits_pos {n : Nat} (h : 0 < n) : 0 < arithBits n :=
  bitLenAux_pos 255 n (by omega)

/-- Claim C7: in the rescale the previous target is right-shifted before
the multiply and left-shifted after the divide exactly when its bit length
exceeds `powLimit`'s bit length minus one — equivalently, reaches
`powLimit`'s bit length — and otherwise the computation is the plain
`T * actualTimespan / targetTimespan` with no shifting. -/
theorem rescaledTarget_shift_guard (T powLimit : Nat) (a t : Int)
    (hp : 0 < powLimit) :
    rescaledTarget T powLimit a t =
      if arithBits powLimit ≤ arithBits T then T / 2 * a.toNat / t.toNat * 2
      else T * a.toNat / t.toNat := by
  have h1 : 0 < arithBits powLimit := arithBits_pos hp
  unfold rescaledTarget
  by_cases h : arithBits powLimit ≤ arithBits T
  · rw [if_pos (by omega), if_pos h]
  · rw [if_neg (by omega), if_neg h]

theorem rescaledTarget_shift_guard_witness :
    rescaledTarget 60000 65535 6 3 =
      if arithBits 65535 ≤ arithBits 60000 then (60000 : Nat) / 2 * (6 : Int).toNat / (3 : Int).toNat * 2
      else 60000 * (6 : Int).toNat / (3 : Int).toNat :=
  rescaledTarget_shift_guard 60000 65535 6 3 (by decide)

/-- Claim C6 (code bug): the exception-skip walk checks its pointer before
every step, but the long-window walk can exit with a null `pindexFirst`
when the chain is exhausted before `interval * 4` steps, and the source
then dereferences it.  At this concrete input (single genesis block,
retarget height 1 at `nForkTwo`) the walk ends at null and the embedded
function faults (`none`) instead of reading a well-defined ancestor. -/
theorem GetNextWorkRequired_longWalk_fault :
    walkPrev (intervalOf (ConsensusParams.mk 1000 400 18900 false false 1 1) 1 * 4).toNat
        (some (CBlockIndex.root 0 1000 100)) = none ∧
    GetNextWorkRequired (CBlockIndex.root 0 1000 100) 2000
      (ConsensusParams.mk 1000 400 18900 false false 1 1) = none := by
  decide

theorem toInt32_eq_self {x : Int} (h : int32Range x = true) : toInt32 x = x := by
  unfold int32Range at h
  simp only [Bool.and_eq_true, decide_eq_true_eq] at h
  unfold toInt32
  have h31 : (2 : Int) ^ 31 = 2147483648 := by norm_num
  have h32 : (2 : Int) ^ 32 = 4294967296 := by norm_num
  rw [h31] at h
  rw [h31, h32]
  omega

/-- Claim C4 (amended): on a retarget at a height at or past `nForkTwo`,
with the chain deep enough for both walks and the damping sum inside
32-bit `int` range, the timespan handed to the clamp step is
`(toInt32 ((short + toInt32 (longGap / 4)) / 2) + 3 * effectiveTimespan) / 4`
— the claimed `((short + long) / 2 + 3 * effectiveTimespan) / 4` with the
long window and the average narrowed to the 32-bit `int` the source stores
them in (pow.cpp lines 71 and 74), the walk length being the short-window
interval times 4 verbatim; when both intermediates fit 32-bit `int` the
exact-arithmetic form of the original claim is recovered. -/
theorem GetNextWorkRequired_forkTwo_timespan (pindexLast pindexFirst w : CBlockIndex)
    (pblockTime : Int) (params : ConsensusParams)
    (hsp : params.nPowTargetSpacing ≠ 0)
    (hint : intervalOf params (pindexLast.nHeight + 1) ≠ 0)
    (hpath : Int.tmod (pindexLast.nHeight + 1) (intervalOf params (pindexLast.nHeight + 1)) = 0 ∨
      pindexLast.nHeight + 1 = params.nForkOne ∨ pindexLast.nHeight + 1 = params.nForkTwo)
    (hfork2 : params.nForkTwo ≤ pindexLast.nHeight + 1)
    (hfirst : ¬pindexLast.nHeight - (intervalOf params (pindexLast.nHeight + 1) - 1) < 0)
    (hanc : pindexLast.GetAncestor
        (pindexLast.nHeight - (intervalOf params (pindexLast.nHeight + 1) - 1)) =
      some pindexFirst)
    (hnr : params.fPowNoRetargeting = false)
    (hw : walkPrev (intervalOf params (pindexLast.nHeight + 1) * 4).toNat (some pindexLast) =
      some w)
    (hrange : (int32Range (3 * effectiveTimespan params (pindexLast.nHeight + 1)) &&
      int32Range (toInt32 (Int.tdiv (pindexLast.GetBlockTime - pindexFirst.GetBlockTime +
          toInt32 (Int.tdiv (pindexLast.GetBlockTime - w.GetBlockTime) 4)) 2) +
        3 * effectiveTimespan params (pindexLast.nHeight + 1))) = true) :
    GetNextWorkRequired pindexLast pblockTime params =
      some (computeRetargetValue pindexLast.nBits params.powLimit
        (limitAdjust
          (Int.tdiv (toInt32 (Int.tdiv (pindexLast.GetBlockTime - pindexFirst.GetBlockTime +
              toInt32 (Int.tdiv (pindexLast.GetBlockTime - w.GetBlockTime) 4)) 2) +
            3 * effectiveTimespan params (pindexLast.nHeight + 1)) 4)
          (clampMin params (pindexLast.nHeight + 1)
            (effectiveTimespan params (pindexLast.nHeight + 1)))
          (clampMax params (pindexLast.nHeight + 1)
            (effectiveTimespan params (pindexLast.nHeight + 1))))
        (effectiveTimespan params (pindexLast.nHeight + 1))) ∧
    (int32Range (Int.tdiv (pindexLast.GetBlockTime - w.GetBlockTime) 4) = true →
      int32Range (Int.tdiv (pindexLast.GetBlockTime - pindexFirst.GetBlockTime +
          Int.tdiv (pindexLast.GetBlockTime - w.GetBlockTime) 4) 2) = true →
      Int.tdiv (toInt32 (Int.tdiv (pindexLast.GetBlockTime - pindexFirst.GetBlockTime +
          toInt32 (Int.tdiv (pindexLast.GetBlockTime - w.GetBlockTime) 4)) 2) +
        3 * effectiveTimespan params (pindexLast.nHeight + 1)) 4 =
      Int.tdiv (Int.tdiv (pindexLast.GetBlockTime - pindexFirst.GetBlockTime +
          Int.tdiv (pindexLast.GetBlockTime - w.GetBlockTime) 4) 2 +
        3 * effectiveTimespan params (pindexLast.nHeight + 1)) 4) := by
  constructor
  · unfold GetNextWorkRequired
    rw [if_neg hsp, if_neg hint, if_neg (by tauto)]
    unfold retargetStep
    rw [if_neg hfirst, hanc]
    dsimp only
    rw [hnr]
    rw [if_neg Bool.false_ne_true]
    unfold clampTimespanInput
    rw [if_pos hfork2, hw]
    dsimp only
    rw [if_pos hrange]
  · intro h1 h2
    rw [toInt32_eq_self h1, toInt32_eq_self h2]

theorem GetNextWorkRequired_forkTwo_timespan_witness :
    GetNextWorkRequired
        (CBlockIndex.cons 4 1400 50335744
          (CBlockIndex.cons 3 1300 50335744
            (CBlockIndex.cons 2 1200 50335744
              (CBlockIndex.cons 1 1100 50335744 (CBlockIndex.root 0 1000 50335744)))))
        2000 (ConsensusParams.mk 65535 400 18900 false false 1 1) = some 34515712 := by
  have h := (GetNextWorkRequired_forkTwo_timespan
    (CBlockIndex.cons 4 1400 50335744
      (CBlockIndex.cons 3 1300 50335744
        (CBlockIndex.cons 2 1200 50335744
          (CBlockIndex.cons 1 1100 50335744 (CBlockIndex.root 0 1000 50335744)))))
    (CBlockIndex.cons 4 1400 50335744
      (CBlockIndex.cons 3 1300 50335744
        (CBlockIndex.cons 2 1200 50335744
          (CBlockIndex.cons 1 1100 50335744 (CBlockIndex.root 0 1000 50335744)))))
    (CBlockIndex.root 0 1000 50335744)
    2000 (ConsensusParams.mk 65535 400 18900 false false 1 1)
    (by decide) (by decide) (by decide) (by decide) (by decide) (by decide) (by decide)
    (by decide) (by decide)).1
  rw [h]
  decide

/-- Claim C4 counterexample: at a retarget at `nForkTwo` with the chain
deep enough for both walks and 32-bit-representable block times whose
short plus long window reaches `2 ^ 32`, the source narrows the average
(`int nActualTimespanAvg`, pow.cpp line 74) to a negative value: the
timespan fed to the clamp step is -402639009 where the claimed
exact-arithmetic formula gives 671102814, so the claim as stated is false
of the program. -/
theorem clampTimespanInput_narrowing_counterexample :
    clampTimespanInput
        (CBlockIndex.cons 8 4294967295 50335744
          (CBlockIndex.cons 7 0 50335744
            (CBlockIndex.cons 6 0 50335744
              (CBlockIndex.cons 5 0 50335744
                (CBlockIndex.cons 4 0 50335744
                  (CBlockIndex.cons 3 0 50335744
                    (CBlockIndex.cons 2 0 50335744
                      (CBlockIndex.cons 1 0 50335744 (CBlockIndex.root 0 0 50335744)))))))))
        (CBlockIndex.cons 7 0 50335744
          (CBlockIndex.cons 6 0 50335744
            (CBlockIndex.cons 5 0 50335744
              (CBlockIndex.cons 4 0 50335744
                (CBlockIndex.cons 3 0 50335744
                  (CBlockIndex.cons 2 0 50335744
                    (CBlockIndex.cons 1 0 50335744 (CBlockIndex.root 0 0 50335744))))))))
        (ConsensusParams.mk 65535 400 9450 false false 9 9) 9 2 18900 =
      some (-402639009) ∧
    GetNextWorkRequired
        (CBlockIndex.cons 8 4294967295 50335744
          (CBlockIndex.cons 7 0 50335744
            (CBlockIndex.cons 6 0 50335744
              (CBlockIndex.cons 5 0 50335744
                (CBlockIndex.cons 4 0 50335744
                  (CBlockIndex.cons 3 0 50335744
                    (CBlockIndex.cons 2 0 50335744
                      (CBlockIndex.cons 1 0 50335744 (CBlockIndex.root 0 0 50335744)))))))))
        2000 (ConsensusParams.mk 65535 400 9450 false false 9 9) = some 34515712 ∧
    Int.tdiv (Int.tdiv (((4294967295 : Int) - 0) + Int.tdiv ((4294967295 : Int) - 0) 4) 2 +
        3 * 18900) 4 = 671102814 ∧
    (-402639009 : Int) ≠ 671102814 := by
  decide

theorem GetNextWorkRequired_le_powLimit_witness :
    setCompactValue 100 ≤ (ConsensusParams.mk 70000 400 100 false false 100 200).powLimit :=
  GetNextWorkRequired_le_powLimit (CBlockIndex.root 4 1000 100) 2000
    (ConsensusParams.mk 70000 400 100 false false 100 200) 100 (by decide) (by decide)
